import Mathlib

/-!
# websrv: the lifecycle of `Start` (src/start.go)

A shallow embedding of `Start(options Options) (server *Server, err error)`.

`Start` talks to four external parties: the serve loop (`server.ListenAndServe`),
the shutdown channel (`<-shutdownChan`), the graceful shutdown
(`server.Shutdown(ctx)`) and the process (`os.Exit`, `log.Fatal`).  Their
answers are the fields of `Env`; a run of `Start` is the list of effects it
performs, in order, together with the way the call ends (`Outcome`).

The serve task (the goroutine of lines 92-106) reacts to the serve loop's
result at one of the points of `ServePoint`, i.e. between two of the effects of
the main flow.  What follows the return of `server.Shutdown` (lines 121-132) is
taken as one step of the main flow, and a run ends where `Start` ends: what the
serve task does after `Start` has returned is not part of it.
-/

namespace websrv

/-! ## Data model -/

/-- Line 14: `const TestingMode = "testing"`. -/
def TestingMode : String := "testing"

/-- Line 15: `const ProductionMode = "production"`. -/
def ProductionMode : String := "production"

/-- Line 18: `const DefaultMode = ProductionMode`. -/
def DefaultMode : String := ProductionMode

/-- Line 31: `type LogLevel string`. -/
abbrev LogLevel := String

/-- Line 35. -/
def LogLevelDebug : LogLevel := "debug"

/-- Line 37. -/
def LogLevelInfo : LogLevel := "info"

/-- Line 39. -/
def LogLevelError : LogLevel := "error"

/-- Line 41. -/
def LogLevelNone : LogLevel := "none"

/-- Lines 21-28: `type Options struct`.  The handler is a Go function value; its
type is the parameter `H`. -/
structure Options (H : Type) where
  Host : String
  Port : String
  URL : String
  Handler : H
  Mode : String
  LogLevel : LogLevel
  deriving DecidableEq, Repr

/-- An `os.Signal` read from `shutdownChan`: the two signals registered at line 89
(`os.Interrupt`, `syscall.SIGTERM`) or any other value a writer of the channel puts
there. -/
inductive Signal where
  | SIGINT
  | SIGTERM
  | other (n : Nat)
  deriving DecidableEq, Repr

/-- A non-nil Go `error`: the sentinel `http.ErrServerClosed`, or any other error
value (compared by identity with the sentinel at line 93, so `other` is never
equal to it, whatever its text). -/
inductive GoError where
  | ErrServerClosed
  | other (msg : String)
  deriving DecidableEq, Repr

/-- A `context.Context` as far as `Start` is concerned: its deadline, if it has one. -/
structure Context where
  deadline : Option Nat
  deriving DecidableEq, Repr

/-- The value of `context.Background()`: never cancelled, no deadline. -/
def Context.Background : Context := { deadline := none }

/-- Modelled from the spec: the type `Server` and its constructor `New` are declared
outside src/start.go.  The spec: "Construct the server bound to the address with the
given handler"; "Running Server Handle: the live listener/server instance, owned
exclusively by the orchestrator".  The handle records the address and the handler it
was built from. -/
structure Server (H : Type) where
  addr : String
  handler : H
  deriving DecidableEq, Repr

/-- Modelled from the spec: `New(addr, handler)` of line 86, see `Server`.  Its result
is a non-nil pointer (line 93 calls a method on it). -/
def New {H : Type} (addr : String) (handler : H) : Server H :=
  { addr := addr, handler := handler }

/-- The console lines of start.go, one constructor per logging call. -/
inductive LogLine where
  /-- line 79: `cfmt.Infoln("Starting server on: ", addr)` -/
  | starting (addr : String)
  /-- line 81: `cfmt.Infoln("APP URL: ", options.URL)` -/
  | appURL (url : String)
  /-- line 110: `cfmt.Infoln("Server is now running, press Ctrl+C to stop it.")` -/
  | running
  /-- line 116: `cfmt.Infoln("Received signal:", sig)` -/
  | receivedSignal (sig : Signal)
  /-- line 117: `cfmt.Infoln("Shutting down server...")` -/
  | shuttingDown
  /-- line 96: `cfmt.Errorln("Error starting server:", err)` -/
  | errorStarting (err : GoError)
  /-- line 100: the text printed by `log.Fatal("Error starting server:", err)` -/
  | fatalStarting (err : GoError)
  /-- line 123: `cfmt.Errorln("Error shutting down server:", err)` -/
  | errorShuttingDown (err : GoError)
  deriving DecidableEq, Repr

/-- The console call behind a line. -/
inductive Severity where
  /-- printed by `cfmt.Infoln` -/
  | info
  /-- printed by `cfmt.Errorln` -/
  | error
  /-- printed by `log.Fatal` -/
  | fatal
  deriving DecidableEq, Repr

/-- The call that prints each line of start.go. -/
def LogLine.severity : LogLine → Severity
  | LogLine.starting _ => Severity.info
  | LogLine.appURL _ => Severity.info
  | LogLine.running => Severity.info
  | LogLine.receivedSignal _ => Severity.info
  | LogLine.shuttingDown => Severity.info
  | LogLine.errorStarting _ => Severity.error
  | LogLine.fatalStarting _ => Severity.fatal
  | LogLine.errorShuttingDown _ => Severity.error

/-- The effects of a run, in the order in which they happen. -/
inductive Event where
  /-- a console line -/
  | log (l : LogLine)
  /-- line 86: `server = New(addr, options.Handler)` -/
  | newServer (addr : String)
  /-- line 89: `signal.Notify(shutdownChan, os.Interrupt, syscall.SIGTERM)` -/
  | notify (sigs : List Signal)
  /-- line 92: the serve task is launched -/
  | spawnServe
  /-- line 93: `server.ListenAndServe()` has returned `err` to the serve task -/
  | serveReturned (err : Option GoError)
  /-- line 113: `sig := <-shutdownChan` has received `sig` -/
  | received (sig : Signal)
  /-- line 121: `server.Shutdown(ctx)` is called -/
  | shutdownCalled (ctx : Context)
  /-- line 121: `server.Shutdown(ctx)` has returned `err` -/
  | shutdownReturned (err : Option GoError)
  deriving DecidableEq, Repr

/-- How a call of `Start` ends. -/
inductive Outcome (H : Type) where
  /-- the call returns `server, err`; `none` stands for `nil` in both positions -/
  | returned (server : Option (Server H)) (err : Option GoError)
  /-- the process is terminated with this exit code (`os.Exit`, `log.Fatal`) -/
  | exited (code : Nat)
  /-- the call never ends: it waits on the channel, or in `Shutdown`, for ever -/
  | blocked
  deriving DecidableEq, Repr

/-- A run of `Start`: its effects and its end. -/
structure Run (H : Type) where
  trace : List Event
  outcome : Outcome H
  deriving DecidableEq, Repr

/-- The points of the main flow at which the serve task can react to the result of
the serve loop. -/
inductive ServePoint where
  /-- after line 106, before the "running" line of lines 109-111 -/
  | beforeRunningLog
  /-- while the main flow waits at line 113, before it receives a signal -/
  | whileWaiting
  /-- after the receive of line 113, before the lines 115-118 -/
  | afterSignal
  /-- after the lines 115-118, before `Shutdown` is called -/
  | beforeShutdown
  /-- after `Shutdown` is called, before it returns -/
  | duringShutdown
  deriving DecidableEq, Repr

/-- The answers of the outside world during one run. -/
structure Env where
  /-- what `<-shutdownChan` yields; `none`: no signal is ever delivered -/
  signal : Option Signal
  /-- what `server.Shutdown(ctx)` returns; `none`: it never returns -/
  shutdown : Context → Option (Option GoError)
  /-- what `server.ListenAndServe()` returns and when the serve task reacts to it;
  `none`: not before `Start` has ended -/
  serve : Option (ServePoint × Option GoError)

/-! ## The code -/

/-- Lines 64-72: the two defaults. -/
def applyDefaults {H : Type} (options : Options H) : Options H :=
  let options := if options.Mode = "" then { options with Mode := DefaultMode } else options
  let options :=
    if options.LogLevel = "" then { options with LogLevel := LogLevelInfo } else options
  options

/-- The test of lines 78, 109 and 115:
`options.LogLevel == LogLevelDebug || options.LogLevel == LogLevelInfo`. -/
def infoEnabled {H : Type} (options : Options H) : Bool :=
  options.LogLevel == LogLevelDebug || options.LogLevel == LogLevelInfo

/-- Lines 78-83: the startup lines. -/
def startupLines {H : Type} (options : Options H) (addr : String) : List LogLine :=
  if infoEnabled options then
    LogLine.starting addr :: (if options.URL ≠ "" then [LogLine.appURL options.URL] else [])
  else []

/-- Lines 109-111. -/
def runningLines {H : Type} (options : Options H) : List LogLine :=
  if infoEnabled options then [LogLine.running] else []

/-- Lines 115-118. -/
def signalLines {H : Type} (options : Options H) (sig : Signal) : List LogLine :=
  if infoEnabled options then [LogLine.receivedSignal sig, LogLine.shuttingDown] else []

/-- What the serve task does with the result of the serve loop. -/
structure TaskEffect where
  logs : List LogLine
  exit : Option Nat
  deriving DecidableEq, Repr

/-- Lines 93-105, the body of the serve task, given what `server.ListenAndServe()`
returned.  `log.Fatal` prints its line and calls `os.Exit(1)`. -/
def serveTask {H : Type} (options : Options H) (err : Option GoError) : TaskEffect :=
  match err with
  | none => { logs := [], exit := none }
  | some e =>
    if e ≠ GoError.ErrServerClosed then
      if options.Mode = TestingMode then
        if options.LogLevel ≠ LogLevelNone then
          { logs := [LogLine.errorStarting e], exit := none }
        else
          { logs := [], exit := none }
      else
        if options.LogLevel ≠ LogLevelNone then
          { logs := [LogLine.fatalStarting e], exit := some 1 }
        else
          { logs := [], exit := some 1 }
    else
      { logs := [], exit := none }

/-- The serve task at the point `p` of the main flow: if the serve loop's result is
handled here, its effects are appended and, unless it has terminated the process, the
main flow goes on with `k`. -/
def serveAt {H : Type} (options : Options H) (env : Env) (p : ServePoint)
    (k : List Event → Run H) (tr : List Event) : Run H :=
  match env.serve with
  | none => k tr
  | some (q, err) =>
    if q = p then
      let eff := serveTask options err
      let tr := tr ++ Event.serveReturned err :: eff.logs.map Event.log
      match eff.exit with
      | some code => { trace := tr, outcome := Outcome.exited code }
      | none => k tr
    else k tr

/-- Lines 120-132: `Shutdown` has been called with `context.Background()`; its answer
decides how `Start` ends. -/
def conclude {H : Type} (options : Options H) (env : Env) (server : Server H)
    (tr : List Event) : Run H :=
  match env.shutdown Context.Background with
  | none => { trace := tr, outcome := Outcome.blocked }
  | some (some err) =>
    let tr := tr ++ [Event.shutdownReturned (some err)]
    let tr :=
      if options.LogLevel ≠ LogLevelNone then
        tr ++ [Event.log (LogLine.errorShuttingDown err)]
      else tr
    { trace := tr, outcome := Outcome.returned none (some err) }
  | some none =>
    let tr := tr ++ [Event.shutdownReturned none]
    if options.Mode ≠ TestingMode then
      { trace := tr, outcome := Outcome.exited 0 }
    else
      { trace := tr, outcome := Outcome.returned (some server) none }

/-- Lines 63-133: `Start`. -/
def Start {H : Type} (options : Options H) (env : Env) : Run H :=
  let options := applyDefaults options
  let addr := options.Host ++ ":" ++ options.Port
  let tr := (startupLines options addr).map Event.log
  let server := New addr options.Handler
  let tr := tr ++ [Event.newServer addr]
  let tr := tr ++ [Event.notify [Signal.SIGINT, Signal.SIGTERM]]
  let tr := tr ++ [Event.spawnServe]
  serveAt options env ServePoint.beforeRunningLog (fun tr =>
    let tr := tr ++ (runningLines options).map Event.log
    serveAt options env ServePoint.whileWaiting (fun tr =>
      match env.signal with
      | none => { trace := tr, outcome := Outcome.blocked }
      | some sig =>
        let tr := tr ++ [Event.received sig]
        serveAt options env ServePoint.afterSignal (fun tr =>
          let tr := tr ++ (signalLines options sig).map Event.log
          serveAt options env ServePoint.beforeShutdown (fun tr =>
            let tr := tr ++ [Event.shutdownCalled Context.Background]
            serveAt options env ServePoint.duringShutdown (fun tr =>
              conclude options env server tr) tr) tr) tr) tr) tr

/-! ## Two views of `serveAt` (see `serveAt_eq`): what the serve task adds to the run
at a point, and whether it ends the run there -/

/-- The effects of the serve task at the point `p`, as `serveAt` appends them: none
unless the serve loop's result is handled there. -/
def fired {H : Type} (options : Options H) (env : Env) (p : ServePoint) : List Event :=
  match env.serve with
  | some (q, err) =>
    if q = p then Event.serveReturned err :: (serveTask options err).logs.map Event.log
    else []
  | none => []

/-- The exit code with which the serve task terminates the process at the point `p`,
as `serveAt` decides it: `none` when it does not. -/
def kills {H : Type} (options : Options H) (env : Env) (p : ServePoint) : Option Nat :=
  match env.serve with
  | some (q, err) => if q = p then (serveTask options err).exit else none
  | none => none

/-! ## Concrete inputs -/

/-- The options of `TestStartWebServer` (start_test.go, lines 19-24), with the unit
value for the empty handler. -/
def testOptions : Options Unit :=
  { Host := "localhost", Port := "8080", URL := "", Handler := (), Mode := "testing",
    LogLevel := "" }

/-- A quiet run: SIGTERM arrives, `Shutdown` succeeds, the serve loop ends only then. -/
def envClean : Env :=
  { signal := some Signal.SIGTERM, shutdown := fun _ => some none, serve := none }

/-- SIGTERM arrives and `Shutdown` fails. -/
def envShutdownFails : Env :=
  { signal := some Signal.SIGTERM,
    shutdown := fun _ => some (some (GoError.other "shutdown failed")),
    serve := none }

/-- The port is in use: the serve loop fails at once with a bind error, and no signal is
ever delivered. -/
def envPortInUse : Env :=
  { signal := none,
    shutdown := fun _ => some none,
    serve := some (ServePoint.whileWaiting,
      some (GoError.other "listen tcp 127.0.0.1:8080: bind: address already in use")) }

/-- The port is in use, and a signal is delivered later. -/
def envPortInUseThenSignal : Env :=
  { envPortInUse with signal := some Signal.SIGINT }

/-- SIGTERM arrives while a connection never finishes: `Shutdown` returns only when the
deadline of its context expires, so never for a context without deadline. -/
def envSlowDrain : Env :=
  { signal := some Signal.SIGTERM,
    shutdown := fun ctx =>
      match ctx.deadline with
      | none => none
      | some _ => some (some (GoError.other "context deadline exceeded")),
    serve := none }

/-- SIGTERM arrives, and the serve loop fails with a bind error that the serve task
handles only after lines 115-118, before `Shutdown` is called. -/
def envFailsBeforeShutdown : Env :=
  { signal := some Signal.SIGTERM,
    shutdown := fun _ => some none,
    serve := some (ServePoint.beforeShutdown,
      some (GoError.other "listen tcp 127.0.0.1:8080: bind: address already in use")) }

/-- Options with the mode "development" of the comment of line 26, the log level
"error" and a URL. -/
def devOptions : Options Unit :=
  { Host := "0.0.0.0", Port := "80", URL := "https://example.org", Handler := (),
    Mode := "development", LogLevel := "error" }

/-! ## The defaults -/

theorem applyDefaults_Host {H : Type} (o : Options H) : (applyDefaults o).Host = o.Host := by
  by_cases hm : o.Mode = "" <;> by_cases hl : o.LogLevel = "" <;>
    simp [applyDefaults, hm, hl]

theorem applyDefaults_Port {H : Type} (o : Options H) : (applyDefaults o).Port = o.Port := by
  by_cases hm : o.Mode = "" <;> by_cases hl : o.LogLevel = "" <;>
    simp [applyDefaults, hm, hl]

theorem applyDefaults_URL {H : Type} (o : Options H) : (applyDefaults o).URL = o.URL := by
  by_cases hm : o.Mode = "" <;> by_cases hl : o.LogLevel = "" <;>
    simp [applyDefaults, hm, hl]

theorem applyDefaults_Handler {H : Type} (o : Options H) :
    (applyDefaults o).Handler = o.Handler := by
  by_cases hm : o.Mode = "" <;> by_cases hl : o.LogLevel = "" <;>
    simp [applyDefaults, hm, hl]

theorem applyDefaults_Mode {H : Type} (o : Options H) :
    (applyDefaults o).Mode = if o.Mode = "" then ProductionMode else o.Mode := by
  by_cases hm : o.Mode = "" <;> by_cases hl : o.LogLevel = "" <;>
    simp [applyDefaults, DefaultMode, hm, hl]

theorem applyDefaults_LogLevel {H : Type} (o : Options H) :
    (applyDefaults o).LogLevel = if o.LogLevel = "" then LogLevelInfo else o.LogLevel := by
  by_cases hm : o.Mode = "" <;> by_cases hl : o.LogLevel = "" <;>
    simp [applyDefaults, hm, hl]

/-- The defaults never turn a mode into, or away from, the testing mode. -/
theorem applyDefaults_testing {H : Type} (o : Options H) :
    (applyDefaults o).Mode = TestingMode ↔ o.Mode = TestingMode := by
  rw [applyDefaults_Mode]
  split_ifs with h
  · rw [h]
    decide
  · exact Iff.rfl

/-- The defaults never turn a log level into, or away from, the level none. -/
theorem applyDefaults_none {H : Type} (o : Options H) :
    (applyDefaults o).LogLevel = LogLevelNone ↔ o.LogLevel = LogLevelNone := by
  rw [applyDefaults_LogLevel]
  split_ifs with h
  · rw [h]
    decide
  · exact Iff.rfl

/-- The options reach `Start` only through the defaults. -/
theorem Start_congr {H : Type} (o₁ o₂ : Options H) (env : Env)
    (h : applyDefaults o₁ = applyDefaults o₂) : Start o₁ env = Start o₂ env := by
  unfold Start
  rw [h]

/-! ## The serve task at a point of the main flow -/

theorem serveAt_none {H : Type} (o : Options H) (env : Env) (p : ServePoint)
    (k : List Event → Run H) (tr : List Event) (h : env.serve = none) :
    serveAt o env p k tr = k tr := by
  simp only [serveAt, h]

theorem serveAt_other {H : Type} (o : Options H) (env : Env) (p q : ServePoint)
    (err : Option GoError) (k : List Event → Run H) (tr : List Event)
    (h : env.serve = some (q, err)) (hq : q ≠ p) :
    serveAt o env p k tr = k tr := by
  simp only [serveAt, h, hq, if_false]

theorem serveAt_exit {H : Type} (o : Options H) (env : Env) (p : ServePoint)
    (err : Option GoError) (c : Nat) (k : List Event → Run H) (tr : List Event)
    (h : env.serve = some (p, err)) (hx : (serveTask o err).exit = some c) :
    serveAt o env p k tr =
      { trace := tr ++ Event.serveReturned err :: (serveTask o err).logs.map Event.log,
        outcome := Outcome.exited c } := by
  simp only [serveAt, h, hx, if_true]

theorem serveAt_continue {H : Type} (o : Options H) (env : Env) (p : ServePoint)
    (err : Option GoError) (k : List Event → Run H) (tr : List Event)
    (h : env.serve = some (p, err)) (hx : (serveTask o err).exit = none) :
    serveAt o env p k tr =
      k (tr ++ Event.serveReturned err :: (serveTask o err).logs.map Event.log) := by
  simp only [serveAt, h, hx, if_true]

/-- The serve task at a point, in terms of `kills` and `fired`. -/
theorem serveAt_eq {H : Type} (o : Options H) (env : Env) (p : ServePoint)
    (k : List Event → Run H) (tr : List Event) :
    serveAt o env p k tr =
      match kills o env p with
      | some code => { trace := tr ++ fired o env p, outcome := Outcome.exited code }
      | none => k (tr ++ fired o env p) := by
  unfold serveAt kills fired
  rcases env.serve with _ | ⟨q, err⟩
  · simp
  · by_cases hq : q = p
    · simp only [hq, if_true]
    · simp [hq]

theorem mem_fired {H : Type} (o : Options H) (env : Env) (p : ServePoint) (x : Event) :
    x ∈ fired o env p ↔
      ∃ err, env.serve = some (p, err) ∧
        (x = Event.serveReturned err ∨ ∃ l ∈ (serveTask o err).logs, x = Event.log l) := by
  unfold fired
  rcases env.serve with _ | ⟨q, err⟩
  · simp
  · by_cases hq : q = p
    · subst hq
      simp [eq_comm]
    · simp [hq]

/-! ## The serve task -/

theorem serveTask_exit_testing {H : Type} (o : Options H) (err : Option GoError)
    (hm : o.Mode = TestingMode) : (serveTask o err).exit = none := by
  unfold serveTask
  rcases err with _ | e
  · rfl
  · by_cases he : e = GoError.ErrServerClosed <;>
      by_cases hl : o.LogLevel = LogLevelNone <;> simp [he, hl, hm]

theorem serveTask_exit_closed {H : Type} (o : Options H) (err : Option GoError)
    (he : ∀ e, err = some e → e = GoError.ErrServerClosed) :
    serveTask o err = { logs := [], exit := none } := by
  unfold serveTask
  rcases err with _ | e
  · rfl
  · simp [he e rfl]

theorem serveTask_exit_failure {H : Type} (o : Options H) (e : GoError)
    (he : e ≠ GoError.ErrServerClosed) (hm : o.Mode ≠ TestingMode) :
    (serveTask o (some e)).exit = some 1 := by
  unfold serveTask
  by_cases hl : o.LogLevel = LogLevelNone <;> simp [he, hl, hm]

theorem serveTask_logs_none {H : Type} (o : Options H) (err : Option GoError)
    (hl : o.LogLevel = LogLevelNone) : (serveTask o err).logs = [] := by
  unfold serveTask
  rcases err with _ | e
  · rfl
  · by_cases he : e = GoError.ErrServerClosed <;>
      by_cases hm : o.Mode = TestingMode <;> simp [he, hl, hm]

/-- The exit decision of the serve task looks at the mode only, never at the log
level. -/
theorem serveTask_exit_congr {H : Type} (o₁ o₂ : Options H) (err : Option GoError)
    (hm : o₁.Mode = TestingMode ↔ o₂.Mode = TestingMode) :
    (serveTask o₁ err).exit = (serveTask o₂ err).exit := by
  unfold serveTask
  rcases err with _ | e
  · rfl
  · by_cases he : e = GoError.ErrServerClosed <;>
      by_cases h1 : o₁.LogLevel = LogLevelNone <;>
      by_cases h2 : o₂.LogLevel = LogLevelNone <;>
      by_cases h3 : o₂.Mode = TestingMode <;> simp [he, h1, h2, h3, hm]

theorem kills_congr {H : Type} (o₁ o₂ : Options H) (env : Env) (p : ServePoint)
    (hm : o₁.Mode = TestingMode ↔ o₂.Mode = TestingMode) :
    kills o₁ env p = kills o₂ env p := by
  unfold kills
  rcases env.serve with _ | ⟨q, err⟩
  · rfl
  · simp only [serveTask_exit_congr o₁ o₂ err hm]

theorem kills_testing {H : Type} (o : Options H) (env : Env) (p : ServePoint)
    (hm : o.Mode = TestingMode) : kills o env p = none := by
  unfold kills
  rcases env.serve with _ | ⟨q, err⟩
  · rfl
  · simp [serveTask_exit_testing o err hm]

/-! ## Facts about every run -/

/-- A run contains the return of `Shutdown` with an error exactly when `Start` returns
the nil handle together with that error. -/
theorem Start_shutdown_error {H : Type} (o : Options H) (env : Env) (e : GoError) :
    Event.shutdownReturned (some e) ∈ (Start o env).trace ↔
      (Start o env).outcome = Outcome.returned none (some e) := by
  unfold Start
  generalize applyDefaults o = o'
  simp only [serveAt_eq]
  rcases kills o' env ServePoint.beforeRunningLog with _ | c
  swap
  · simp [mem_fired]
  rcases kills o' env ServePoint.whileWaiting with _ | c
  swap
  · simp [mem_fired]
  rcases env.signal with _ | sig
  · simp [mem_fired]
  rcases kills o' env ServePoint.afterSignal with _ | c
  swap
  · simp [mem_fired]
  rcases kills o' env ServePoint.beforeShutdown with _ | c
  swap
  · simp [mem_fired]
  rcases kills o' env ServePoint.duringShutdown with _ | c
  swap
  · simp [mem_fired]
  simp only [conclude]
  rcases env.shutdown Context.Background with _ | _ | e'
  · simp [mem_fired]
  · by_cases hm : o'.Mode = TestingMode <;> simp [hm, mem_fired]
  · by_cases hl : o'.LogLevel = LogLevelNone <;> simp [hl, mem_fired, eq_comm]

/-- When `Start` returns, a signal was received and `Shutdown` returned: with an error,
which `Start` returns with the nil handle, or without one, and then the mode is the
testing mode and the handle is the server built at line 86. -/
theorem Start_returned {H : Type} (o : Options H) (env : Env) (s : Option (Server H))
    (r : Option GoError) (h : (Start o env).outcome = Outcome.returned s r) :
    (∃ sig, env.signal = some sig ∧ Event.received sig ∈ (Start o env).trace) ∧
    env.shutdown Context.Background = some r ∧
    Event.shutdownReturned r ∈ (Start o env).trace ∧
    (r = none → o.Mode = TestingMode ∧ s = some (New (o.Host ++ ":" ++ o.Port) o.Handler)) ∧
    (r ≠ none → s = none) := by
  have hH := applyDefaults_Host o
  have hP := applyDefaults_Port o
  have hF := applyDefaults_Handler o
  have hM := applyDefaults_testing o
  revert h
  unfold Start
  generalize applyDefaults o = o' at hH hP hF hM ⊢
  rw [← hH, ← hP, ← hF, ← hM]
  simp only [serveAt_eq]
  rcases kills o' env ServePoint.beforeRunningLog with _ | c
  swap
  · simp
  rcases kills o' env ServePoint.whileWaiting with _ | c
  swap
  · simp
  rcases env.signal with _ | sig
  · simp
  rcases kills o' env ServePoint.afterSignal with _ | c
  swap
  · simp
  rcases kills o' env ServePoint.beforeShutdown with _ | c
  swap
  · simp
  rcases kills o' env ServePoint.duringShutdown with _ | c
  swap
  · simp
  simp only [conclude]
  rcases env.shutdown Context.Background with _ | _ | e'
  · simp
  · by_cases hm : o'.Mode = TestingMode <;> simp [hm]
    rintro rfl rfl
    simp
  · by_cases hl : o'.LogLevel = LogLevelNone <;> simp [hl] <;>
      rintro rfl rfl <;> simp

/-- After a successful `Shutdown` the mode alone decides how `Start` ends. -/
theorem Start_shutdown_ok {H : Type} (o : Options H) (env : Env)
    (h : Event.shutdownReturned none ∈ (Start o env).trace) :
    (Start o env).outcome =
      if o.Mode = TestingMode then
        Outcome.returned (some (New (o.Host ++ ":" ++ o.Port) o.Handler)) none
      else Outcome.exited 0 := by
  have hH := applyDefaults_Host o
  have hP := applyDefaults_Port o
  have hF := applyDefaults_Handler o
  have hM := applyDefaults_testing o
  revert h
  unfold Start
  generalize applyDefaults o = o' at hH hP hF hM ⊢
  rw [← hH, ← hP, ← hF]
  simp only [← hM]
  simp only [serveAt_eq]
  rcases kills o' env ServePoint.beforeRunningLog with _ | c
  swap
  · simp [mem_fired]
  rcases kills o' env ServePoint.whileWaiting with _ | c
  swap
  · simp [mem_fired]
  rcases env.signal with _ | sig
  · simp [mem_fired]
  rcases kills o' env ServePoint.afterSignal with _ | c
  swap
  · simp [mem_fired]
  rcases kills o' env ServePoint.beforeShutdown with _ | c
  swap
  · simp [mem_fired]
  rcases kills o' env ServePoint.duringShutdown with _ | c
  swap
  · simp [mem_fired]
  simp only [conclude]
  rcases env.shutdown Context.Background with _ | _ | e'
  · simp [mem_fired]
  · by_cases hm : o'.Mode = TestingMode <;> simp [hm]
  · by_cases hl : o'.LogLevel = LogLevelNone <;> simp [hl, mem_fired]

theorem infoEnabled_none {H : Type} (o : Options H) (hl : o.LogLevel = LogLevelNone) :
    infoEnabled o = false := by
  unfold infoEnabled
  rw [hl]
  decide

/-- At the log level none a run has no console line. -/
theorem Start_silent {H : Type} (o : Options H) (env : Env)
    (hl : o.LogLevel = LogLevelNone) (l : LogLine) :
    Event.log l ∉ (Start o env).trace := by
  have hL := (applyDefaults_none o).mpr hl
  unfold Start
  generalize applyDefaults o = o' at hL ⊢
  have hi := infoEnabled_none o' hL
  have ht := fun err => serveTask_logs_none o' err hL
  simp only [serveAt_eq, startupLines, runningLines, signalLines, hi]
  rcases kills o' env ServePoint.beforeRunningLog with _ | c
  swap
  · simp [mem_fired, ht]
  rcases kills o' env ServePoint.whileWaiting with _ | c
  swap
  · simp [mem_fired, ht]
  rcases env.signal with _ | sig
  · simp [mem_fired, ht]
  rcases kills o' env ServePoint.afterSignal with _ | c
  swap
  · simp [mem_fired, ht]
  rcases kills o' env ServePoint.beforeShutdown with _ | c
  swap
  · simp [mem_fired, ht]
  rcases kills o' env ServePoint.duringShutdown with _ | c
  swap
  · simp [mem_fired, ht]
  simp only [conclude]
  rcases env.shutdown Context.Background with _ | _ | e'
  · simp [mem_fired, ht]
  · by_cases hm : o'.Mode = TestingMode <;> simp [hm, mem_fired, ht]
  · simp [hL, mem_fired, ht]

/-- The way a run ends depends on the options through the host, the port, the handler
and the mode only. -/
theorem Start_outcome_congr {H : Type} (o₁ o₂ : Options H) (env : Env)
    (hH : (applyDefaults o₁).Host = (applyDefaults o₂).Host)
    (hP : (applyDefaults o₁).Port = (applyDefaults o₂).Port)
    (hF : (applyDefaults o₁).Handler = (applyDefaults o₂).Handler)
    (hM : (applyDefaults o₁).Mode = (applyDefaults o₂).Mode) :
    (Start o₁ env).outcome = (Start o₂ env).outcome := by
  unfold Start
  generalize applyDefaults o₁ = a at hH hP hF hM ⊢
  generalize applyDefaults o₂ = b at hH hP hF hM ⊢
  have hk : ∀ p, kills a env p = kills b env p :=
    fun p => kills_congr a b env p (by rw [hM])
  simp only [serveAt_eq, hk, hH, hP, hF]
  rcases kills b env ServePoint.beforeRunningLog with _ | c
  swap
  · simp
  rcases kills b env ServePoint.whileWaiting with _ | c
  swap
  · simp
  rcases env.signal with _ | sig
  · simp
  rcases kills b env ServePoint.afterSignal with _ | c
  swap
  · simp
  rcases kills b env ServePoint.beforeShutdown with _ | c
  swap
  · simp
  rcases kills b env ServePoint.duringShutdown with _ | c
  swap
  · simp
  simp only [conclude]
  rcases env.shutdown Context.Background with _ | _ | e'
  · simp
  · by_cases hm : b.Mode = TestingMode <;> simp [hm, hM]
  · simp

/-- In the testing mode no run ends with the termination of the process. -/
theorem Start_testing_no_exit {H : Type} (o : Options H) (env : Env)
    (hm : o.Mode = TestingMode) (c : Nat) : (Start o env).outcome ≠ Outcome.exited c := by
  have hM := (applyDefaults_testing o).mpr hm
  unfold Start
  generalize applyDefaults o = o' at hM ⊢
  simp only [serveAt_eq, kills_testing o' env _ hM]
  rcases env.signal with _ | sig
  · simp
  simp only [conclude]
  rcases env.shutdown Context.Background with _ | _ | e' <;> simp [hM]

/-- Every call of `Shutdown` comes after the receipt of a signal and carries the
background context. -/
theorem Start_shutdownCalled {H : Type} (o : Options H) (env : Env) (ctx : Context)
    (h : Event.shutdownCalled ctx ∈ (Start o env).trace) :
    ctx = Context.Background ∧
      ∃ sig, env.signal = some sig ∧ Event.received sig ∈ (Start o env).trace := by
  revert h
  unfold Start
  generalize applyDefaults o = o'
  simp only [serveAt_eq]
  rcases kills o' env ServePoint.beforeRunningLog with _ | c
  swap
  · simp [mem_fired]
  rcases kills o' env ServePoint.whileWaiting with _ | c
  swap
  · simp [mem_fired]
  rcases env.signal with _ | sig
  · simp [mem_fired]
  rcases kills o' env ServePoint.afterSignal with _ | c
  swap
  · simp [mem_fired]
  rcases kills o' env ServePoint.beforeShutdown with _ | c
  swap
  · simp [mem_fired]
  rcases kills o' env ServePoint.duringShutdown with _ | c
  swap
  · simp [mem_fired]
  simp only [conclude]
  rcases env.shutdown Context.Background with _ | _ | e'
  · simp [mem_fired]
  · by_cases hm : o'.Mode = TestingMode <;> simp [hm, mem_fired]
  · by_cases hl : o'.LogLevel = LogLevelNone <;> simp [hl, mem_fired]

/-- Two option records that agree, after the defaults, on everything but the mode, and
are both in the testing mode or both not, have the same runs. -/
theorem Start_mode_congr {H : Type} (o₁ o₂ : Options H) (env : Env)
    (hH : (applyDefaults o₁).Host = (applyDefaults o₂).Host)
    (hP : (applyDefaults o₁).Port = (applyDefaults o₂).Port)
    (hU : (applyDefaults o₁).URL = (applyDefaults o₂).URL)
    (hF : (applyDefaults o₁).Handler = (applyDefaults o₂).Handler)
    (hL : (applyDefaults o₁).LogLevel = (applyDefaults o₂).LogLevel)
    (hM : (applyDefaults o₁).Mode = TestingMode ↔ (applyDefaults o₂).Mode = TestingMode) :
    Start o₁ env = Start o₂ env := by
  unfold Start
  generalize applyDefaults o₁ = a at hH hP hU hF hL hM ⊢
  generalize applyDefaults o₂ = b at hH hP hU hF hL hM ⊢
  have h1 : ∀ addr, startupLines a addr = startupLines b addr := by
    intro addr
    simp only [startupLines, infoEnabled, hL, hU]
  have h2 : runningLines a = runningLines b := by
    simp only [runningLines, infoEnabled, hL]
  have h3 : ∀ sig, signalLines a sig = signalLines b sig := by
    intro sig
    simp only [signalLines, infoEnabled, hL]
  have h4 : ∀ err, serveTask a err = serveTask b err := by
    intro err
    unfold serveTask
    rcases err with _ | e
    · rfl
    · by_cases hm : b.Mode = TestingMode <;> simp [hm, hM, hL]
  have h5 : ∀ p k tr, serveAt a env p k tr = serveAt b env p k tr := by
    intro p k tr
    simp only [serveAt, h4]
  have h6 : ∀ srv tr, conclude a env srv tr = conclude b env srv tr := by
    intro srv tr
    unfold conclude
    rcases env.shutdown Context.Background with _ | _ | e'
    · rfl
    · by_cases hm : b.Mode = TestingMode <;> simp [hm, hM]
    · simp [hL]
  simp only [h1, h2, h3, h5, h6, hH, hP, hF]

/-! ## The console lines of a run -/

/-- The serve task never prints through `cfmt.Infoln`. -/
theorem serveTask_logs_severity {H : Type} (o : Options H) (err : Option GoError)
    (l : LogLine) (h : l ∈ (serveTask o err).logs) : l.severity ≠ Severity.info := by
  unfold serveTask at h
  rcases err with _ | e
  · simp at h
  · by_cases he : e = GoError.ErrServerClosed <;>
      by_cases hm : o.Mode = TestingMode <;>
      by_cases hl : o.LogLevel = LogLevelNone <;>
      simp [he, hm, hl] at h <;> subst h <;> simp [LogLine.severity]

/-- An informational line is printed only when the test of lines 78, 109 and 115
succeeds. -/
theorem Start_info_line {H : Type} (o : Options H) (env : Env) (l : LogLine)
    (hsev : l.severity = Severity.info) (h : Event.log l ∈ (Start o env).trace) :
    infoEnabled (applyDefaults o) = true := by
  by_contra hi
  rw [Bool.not_eq_true] at hi
  revert h
  unfold Start
  generalize applyDefaults o = o' at hi ⊢
  have h1 : ∀ e, l ≠ LogLine.errorShuttingDown e := by
    rintro e rfl
    simp [LogLine.severity] at hsev
  have h2 : ∀ err, l ∉ (serveTask o' err).logs :=
    fun err hmem => serveTask_logs_severity o' err l hmem hsev
  simp only [serveAt_eq, startupLines, runningLines, signalLines, hi]
  rcases kills o' env ServePoint.beforeRunningLog with _ | c
  swap
  · simp [mem_fired, h2]
  rcases kills o' env ServePoint.whileWaiting with _ | c
  swap
  · simp [mem_fired, h2]
  rcases env.signal with _ | sig
  · simp [mem_fired, h2]
  rcases kills o' env ServePoint.afterSignal with _ | c
  swap
  · simp [mem_fired, h2]
  rcases kills o' env ServePoint.beforeShutdown with _ | c
  swap
  · simp [mem_fired, h2]
  rcases kills o' env ServePoint.duringShutdown with _ | c
  swap
  · simp [mem_fired, h2]
  simp only [conclude]
  rcases env.shutdown Context.Background with _ | _ | e'
  · simp [mem_fired, h2]
  · by_cases hm : o'.Mode = TestingMode <;> simp [hm, mem_fired, h2]
  · by_cases hl : o'.LogLevel = LogLevelNone <;> simp [hl, mem_fired, h2, h1]

theorem mem_startupLines {H : Type} (o : Options H) (addr : String) (l : LogLine) :
    l ∈ startupLines o addr ↔
      (infoEnabled o = true ∧
        (l = LogLine.starting addr ∨ (o.URL ≠ "" ∧ l = LogLine.appURL o.URL))) := by
  unfold startupLines
  by_cases hi : infoEnabled o = true <;> by_cases hu : o.URL = "" <;> simp [hi, hu]

theorem mem_runningLines {H : Type} (o : Options H) (l : LogLine) :
    l ∈ runningLines o ↔ (infoEnabled o = true ∧ l = LogLine.running) := by
  unfold runningLines
  by_cases hi : infoEnabled o = true <;> simp [hi]

theorem mem_signalLines {H : Type} (o : Options H) (sig : Signal) (l : LogLine) :
    l ∈ signalLines o sig ↔
      (infoEnabled o = true ∧ (l = LogLine.receivedSignal sig ∨ l = LogLine.shuttingDown)) := by
  unfold signalLines
  by_cases hi : infoEnabled o = true <;> simp [hi]

/-- The startup lines of a run: the address line is there exactly when informational
lines are enabled, the URL line exactly when, in addition, the URL is not empty. -/
theorem Start_startup_lines {H : Type} (o : Options H) (env : Env) :
    (∀ a, Event.log (LogLine.starting a) ∈ (Start o env).trace ↔
        (infoEnabled (applyDefaults o) = true ∧ a = o.Host ++ ":" ++ o.Port)) ∧
    (∀ u, Event.log (LogLine.appURL u) ∈ (Start o env).trace ↔
        (infoEnabled (applyDefaults o) = true ∧ o.URL ≠ "" ∧ u = o.URL)) := by
  have hH := applyDefaults_Host o
  have hP := applyDefaults_Port o
  have hU := applyDefaults_URL o
  unfold Start
  generalize applyDefaults o = o' at hH hP hU ⊢
  rw [← hH, ← hP, ← hU]
  have h2 : ∀ err a, LogLine.starting a ∉ (serveTask o' err).logs :=
    fun err a hmem => serveTask_logs_severity o' err _ hmem rfl
  have h3 : ∀ err u, LogLine.appURL u ∉ (serveTask o' err).logs :=
    fun err u hmem => serveTask_logs_severity o' err _ hmem rfl
  simp only [serveAt_eq]
  rcases kills o' env ServePoint.beforeRunningLog with _ | c
  swap
  · simp [mem_fired, h2, h3, mem_startupLines, mem_runningLines, mem_signalLines]
  rcases kills o' env ServePoint.whileWaiting with _ | c
  swap
  · simp [mem_fired, h2, h3, mem_startupLines, mem_runningLines, mem_signalLines]
  rcases env.signal with _ | sig
  · simp [mem_fired, h2, h3, mem_startupLines, mem_runningLines, mem_signalLines]
  rcases kills o' env ServePoint.afterSignal with _ | c
  swap
  · simp [mem_fired, h2, h3, mem_startupLines, mem_runningLines, mem_signalLines]
  rcases kills o' env ServePoint.beforeShutdown with _ | c
  swap
  · simp [mem_fired, h2, h3, mem_startupLines, mem_runningLines, mem_signalLines]
  rcases kills o' env ServePoint.duringShutdown with _ | c
  swap
  · simp [mem_fired, h2, h3, mem_startupLines, mem_runningLines, mem_signalLines]
  simp only [conclude]
  rcases env.shutdown Context.Background with _ | _ | e'
  · simp [mem_fired, h2, h3, mem_startupLines, mem_runningLines, mem_signalLines]
  · by_cases hm : o'.Mode = TestingMode <;>
      simp [hm, mem_fired, h2, h3, mem_startupLines, mem_runningLines, mem_signalLines]
  · by_cases hl : o'.LogLevel = LogLevelNone <;>
      simp [hl, mem_fired, h2, h3, mem_startupLines, mem_runningLines, mem_signalLines]

/-- The serve task prints its own two lines only. -/
theorem serveTask_logs_kind {H : Type} (o : Options H) (err : Option GoError)
    (l : LogLine) (h : l ∈ (serveTask o err).logs) :
    ∃ e, err = some e ∧ e ≠ GoError.ErrServerClosed ∧ o.LogLevel ≠ LogLevelNone ∧
      ((o.Mode = TestingMode ∧ l = LogLine.errorStarting e) ∨
       (o.Mode ≠ TestingMode ∧ l = LogLine.fatalStarting e)) := by
  unfold serveTask at h
  rcases err with _ | e
  · simp at h
  · by_cases he : e = GoError.ErrServerClosed <;>
      by_cases hm : o.Mode = TestingMode <;>
      by_cases hl : o.LogLevel = LogLevelNone <;>
      simp [he, hm, hl] at h <;> subst h <;> simp [he, hm, hl]

/-- Once the main flow has received a signal, the "running" line is printed if
informational lines are enabled; once it has called `Shutdown`, so are the two lines
of lines 116-117, with the signal that was received. -/
theorem Start_progress_lines {H : Type} (o : Options H) (env : Env)
    (hi : infoEnabled (applyDefaults o) = true) :
    (∀ sig, Event.received sig ∈ (Start o env).trace →
        Event.log LogLine.running ∈ (Start o env).trace) ∧
    (∀ ctx sig, Event.shutdownCalled ctx ∈ (Start o env).trace →
        Event.received sig ∈ (Start o env).trace →
        Event.log (LogLine.receivedSignal sig) ∈ (Start o env).trace ∧
          Event.log LogLine.shuttingDown ∈ (Start o env).trace) := by
  unfold Start
  generalize applyDefaults o = o' at hi ⊢
  simp only [serveAt_eq]
  rcases kills o' env ServePoint.beforeRunningLog with _ | c
  swap
  · simp [mem_fired, mem_startupLines, mem_runningLines, mem_signalLines, hi]
  rcases kills o' env ServePoint.whileWaiting with _ | c
  swap
  · simp [mem_fired, mem_startupLines, mem_runningLines, mem_signalLines, hi]
  rcases env.signal with _ | sig
  · simp [mem_fired, mem_startupLines, mem_runningLines, mem_signalLines, hi]
  rcases kills o' env ServePoint.afterSignal with _ | c
  swap
  · simp [mem_fired, mem_startupLines, mem_runningLines, mem_signalLines, hi]
  rcases kills o' env ServePoint.beforeShutdown with _ | c
  swap
  · simp [mem_fired, mem_startupLines, mem_runningLines, mem_signalLines, hi]
  rcases kills o' env ServePoint.duringShutdown with _ | c
  swap
  · simp [mem_fired, mem_startupLines, mem_runningLines, mem_signalLines, hi]
  simp only [conclude]
  rcases env.shutdown Context.Background with _ | _ | e'
  · simp [mem_fired, mem_startupLines, mem_runningLines, mem_signalLines, hi]
  · by_cases hm : o'.Mode = TestingMode <;>
      simp [hm, mem_fired, mem_startupLines, mem_runningLines, mem_signalLines, hi]
  · by_cases hl : o'.LogLevel = LogLevelNone <;>
      simp [hl, mem_fired, mem_startupLines, mem_runningLines, mem_signalLines, hi]

/-- The line of line 123 is printed exactly when `Shutdown` has returned that error
and the log level is not none. -/
theorem Start_shutdown_error_line {H : Type} (o : Options H) (env : Env) (e : GoError) :
    Event.log (LogLine.errorShuttingDown e) ∈ (Start o env).trace ↔
      (Event.shutdownReturned (some e) ∈ (Start o env).trace ∧
        o.LogLevel ≠ LogLevelNone) := by
  have hN := applyDefaults_none o
  unfold Start
  generalize applyDefaults o = o' at hN ⊢
  rw [ne_eq, ← hN]
  have h2 : ∀ err, LogLine.errorShuttingDown e ∉ (serveTask o' err).logs := by
    intro err hmem
    obtain ⟨e₁, -, -, -, h | h⟩ := serveTask_logs_kind o' err _ hmem <;> simp at h
  simp only [serveAt_eq]
  rcases kills o' env ServePoint.beforeRunningLog with _ | c
  swap
  · simp [mem_fired, mem_startupLines, mem_runningLines, mem_signalLines, h2]
  rcases kills o' env ServePoint.whileWaiting with _ | c
  swap
  · simp [mem_fired, mem_startupLines, mem_runningLines, mem_signalLines, h2]
  rcases env.signal with _ | sig
  · simp [mem_fired, mem_startupLines, mem_runningLines, mem_signalLines, h2]
  rcases kills o' env ServePoint.afterSignal with _ | c
  swap
  · simp [mem_fired, mem_startupLines, mem_runningLines, mem_signalLines, h2]
  rcases kills o' env ServePoint.beforeShutdown with _ | c
  swap
  · simp [mem_fired, mem_startupLines, mem_runningLines, mem_signalLines, h2]
  rcases kills o' env ServePoint.duringShutdown with _ | c
  swap
  · simp [mem_fired, mem_startupLines, mem_runningLines, mem_signalLines, h2]
  simp only [conclude]
  rcases env.shutdown Context.Background with _ | _ | e'
  · simp [mem_fired, mem_startupLines, mem_runningLines, mem_signalLines, h2]
  · by_cases hm : o'.Mode = TestingMode <;>
      simp [hm, mem_fired, mem_startupLines, mem_runningLines, mem_signalLines, h2]
  · by_cases hl : o'.LogLevel = LogLevelNone <;>
      simp [hl, mem_fired, mem_startupLines, mem_runningLines, mem_signalLines, h2]

/-! ## The serve task within a run -/

theorem conclude_mem_of_mem {H : Type} (o : Options H) (env : Env) (srv : Server H)
    (tr : List Event) (x : Event) (h : x ∈ tr) : x ∈ (conclude o env srv tr).trace := by
  unfold conclude
  rcases env.shutdown Context.Background with _ | _ | e'
  · simpa using h
  · by_cases hm : o.Mode = TestingMode <;> simp [hm, h]
  · by_cases hl : o.LogLevel = LogLevelNone <;> simp [hl, h]

theorem conclude_serveReturned {H : Type} (o : Options H) (env : Env) (srv : Server H)
    (tr : List Event) (err : Option GoError) :
    Event.serveReturned err ∈ (conclude o env srv tr).trace ↔
      Event.serveReturned err ∈ tr := by
  unfold conclude
  rcases env.shutdown Context.Background with _ | _ | e'
  · simp
  · by_cases hm : o.Mode = TestingMode <;> simp [hm]
  · by_cases hl : o.LogLevel = LogLevelNone <;> simp [hl]

/-- When the serve task has handled the result `err` of the serve loop, its lines are
in the run, and if it terminates the process the run ends there. -/
theorem Start_task {H : Type} (o : Options H) (env : Env) (err : Option GoError)
    (h : Event.serveReturned err ∈ (Start o env).trace) :
    (∃ p, env.serve = some (p, err)) ∧
    (∀ l, l ∈ (serveTask (applyDefaults o) err).logs →
        Event.log l ∈ (Start o env).trace) ∧
    (∀ c, (serveTask (applyDefaults o) err).exit = some c →
        (Start o env).outcome = Outcome.exited c) := by
  revert h
  unfold Start
  generalize applyDefaults o = o'
  rcases hs : env.serve with _ | ⟨q, err'⟩
  · simp only [serveAt_none _ _ _ _ _ hs]
    rcases env.signal with _ | sig
    · simp
    · simp [conclude_serveReturned]
  · rcases hx : (serveTask o' err').exit with _ | c
    · cases q <;>
      simp (disch := decide) only
        [serveAt_continue _ _ _ _ _ _ hs hx, serveAt_other _ _ _ _ _ _ _ hs] <;>
      rcases env.signal with _ | sig <;>
      simp [conclude_serveReturned] <;> rintro rfl <;> simp [hx] <;>
      intro l hl <;>
      first
        | (apply conclude_mem_of_mem
           simp [hl])
        | simp [hl]
    · cases q <;>
      simp (disch := decide) only
        [serveAt_exit _ _ _ _ _ _ _ hs hx, serveAt_other _ _ _ _ _ _ _ hs] <;>
      rcases env.signal with _ | sig <;>
      simp [conclude_serveReturned] <;> rintro rfl <;> simp [hx] <;>
      intro l hl <;> simp [hl]

/-- When the serve task is scheduled before the main flow receives a signal, it does
handle the serve loop's result in the run. -/
theorem Start_early_task {H : Type} (o : Options H) (env : Env) (p : ServePoint)
    (err : Option GoError) (hs : env.serve = some (p, err))
    (hp : p = ServePoint.beforeRunningLog ∨ p = ServePoint.whileWaiting) :
    Event.serveReturned err ∈ (Start o env).trace := by
  unfold Start
  generalize applyDefaults o = o'
  rcases hx : (serveTask o' err).exit with _ | c
  · rcases hp with rfl | rfl <;>
    simp (disch := decide) only
      [serveAt_continue _ _ _ _ _ _ hs hx, serveAt_other _ _ _ _ _ _ _ hs] <;>
    rcases env.signal with _ | sig <;>
    first
      | (apply conclude_mem_of_mem
         simp)
      | simp
  · rcases hp with rfl | rfl <;>
    simp (disch := decide) only
      [serveAt_exit _ _ _ _ _ _ _ hs hx, serveAt_other _ _ _ _ _ _ _ hs] <;>
    simp

theorem serveTask_failure_testing {H : Type} (o : Options H) (e : GoError)
    (he : e ≠ GoError.ErrServerClosed) (hm : o.Mode = TestingMode)
    (hl : o.LogLevel ≠ LogLevelNone) :
    (serveTask o (some e)).logs = [LogLine.errorStarting e] := by
  simp [serveTask, he, hm, hl]

theorem serveTask_failure_fatal {H : Type} (o : Options H) (e : GoError)
    (he : e ≠ GoError.ErrServerClosed) (hm : o.Mode ≠ TestingMode)
    (hl : o.LogLevel ≠ LogLevelNone) :
    (serveTask o (some e)).logs = [LogLine.fatalStarting e] := by
  simp [serveTask, he, hm, hl]

theorem infoEnabled_iff {H : Type} (o : Options H) :
    infoEnabled o = true ↔ (o.LogLevel = LogLevelDebug ∨ o.LogLevel = LogLevelInfo) := by
  simp [infoEnabled]

/-! ## Runs the serve task does not end -/

theorem kills_serve_none {H : Type} (o : Options H) (env : Env) (p : ServePoint)
    (hs : env.serve = none) : kills o env p = none := by
  simp [kills, hs]

/-- When the serve task terminates the process, the mode is not the testing mode, the
serve loop has failed with an error other than `http.ErrServerClosed`, and the exit code
is 1. -/
theorem kills_some {H : Type} (o : Options H) (env : Env) (p : ServePoint) (c : Nat)
    (h : kills o env p = some c) :
    c = 1 ∧ o.Mode ≠ TestingMode ∧
      ∃ e, e ≠ GoError.ErrServerClosed ∧ env.serve = some (p, some e) := by
  unfold kills at h
  rcases hs : env.serve with _ | ⟨q, err⟩
  · simp [hs] at h
  · rw [hs] at h
    by_cases hq : q = p
    · subst hq
      simp only [if_true] at h
      rcases err with _ | e
      · simp [serveTask] at h
      · by_cases he : e = GoError.ErrServerClosed
        · simp [serveTask, he] at h
        · by_cases hm : o.Mode = TestingMode
          · rw [serveTask_exit_testing o _ hm] at h
            cases h
          · rw [serveTask_exit_failure o e he hm] at h
            cases h
            exact ⟨rfl, hm, e, he, rfl⟩
    · simp [hq] at h

/-- A run the serve task does not end: without a signal `Start` waits for ever; with
one it calls `Shutdown` and ends as `Shutdown` answers. -/
theorem Start_alive {H : Type} (o : Options H) (env : Env)
    (hk : ∀ p, kills (applyDefaults o) env p = none) :
    (env.signal = none → (Start o env).outcome = Outcome.blocked) ∧
    (∀ sig, env.signal = some sig →
      Event.shutdownCalled Context.Background ∈ (Start o env).trace ∧
      (env.shutdown Context.Background = none →
        (Start o env).outcome = Outcome.blocked) ∧
      (∀ e, env.shutdown Context.Background = some (some e) →
        (Start o env).outcome = Outcome.returned none (some e)) ∧
      (env.shutdown Context.Background = some none →
        (Start o env).outcome =
          if o.Mode = TestingMode then
            Outcome.returned (some (New (o.Host ++ ":" ++ o.Port) o.Handler)) none
          else Outcome.exited 0)) := by
  have hH := applyDefaults_Host o
  have hP := applyDefaults_Port o
  have hF := applyDefaults_Handler o
  have hM := applyDefaults_testing o
  unfold Start
  generalize applyDefaults o = o' at hk hH hP hF hM ⊢
  rw [← hH, ← hP, ← hF]
  simp only [← hM]
  simp only [serveAt_eq, hk]
  constructor
  · intro hs
    simp [hs]
  · intro sig hs
    simp only [hs]
    refine ⟨?_, ?_, ?_, ?_⟩
    · apply conclude_mem_of_mem
      simp
    · intro h
      simp [conclude, h]
    · intro e h
      simp [conclude, h]
    · intro h
      by_cases hm : o'.Mode = TestingMode <;> simp [conclude, h, hm]

/-- While `Shutdown` does not return, a run that has called it waits in it, unless the
serve task terminates the process meanwhile. -/
theorem Start_shutdown_pending {H : Type} (o : Options H) (env : Env) (ctx : Context)
    (hn : env.shutdown Context.Background = none)
    (h : Event.shutdownCalled ctx ∈ (Start o env).trace) :
    (Start o env).outcome = Outcome.blocked ∨
      ((Start o env).outcome = Outcome.exited 1 ∧ o.Mode ≠ TestingMode ∧
        ∃ e, e ≠ GoError.ErrServerClosed ∧
          env.serve = some (ServePoint.duringShutdown, some e)) := by
  have hM := applyDefaults_testing o
  revert h
  unfold Start
  generalize applyDefaults o = o' at hM ⊢
  rw [ne_eq, ← hM]
  simp only [serveAt_eq]
  rcases kills o' env ServePoint.beforeRunningLog with _ | c
  swap
  · simp [mem_fired]
  rcases kills o' env ServePoint.whileWaiting with _ | c
  swap
  · simp [mem_fired]
  rcases env.signal with _ | sig
  · simp [mem_fired]
  rcases kills o' env ServePoint.afterSignal with _ | c
  swap
  · simp [mem_fired]
  rcases kills o' env ServePoint.beforeShutdown with _ | c
  swap
  · simp [mem_fired]
  rcases hk : kills o' env ServePoint.duringShutdown with _ | c
  · intro _
    left
    simp [conclude, hn]
  · intro _
    right
    obtain ⟨rfl, h2, h3⟩ := kills_some o' env _ c hk
    exact ⟨rfl, h2, h3⟩

/-! ## The lines of the main flow, run by run -/

/-- The "running" line of lines 109-111 is printed exactly when informational lines are
enabled and the serve task has not terminated the process before line 109. -/
theorem Start_running_line {H : Type} (o : Options H) (env : Env) :
    Event.log LogLine.running ∈ (Start o env).trace ↔
      (infoEnabled (applyDefaults o) = true ∧
        kills (applyDefaults o) env ServePoint.beforeRunningLog = none) := by
  unfold Start
  generalize applyDefaults o = o'
  have h2 : ∀ err, LogLine.running ∉ (serveTask o' err).logs :=
    fun err hmem => serveTask_logs_severity o' err _ hmem rfl
  simp only [serveAt_eq]
  rcases kills o' env ServePoint.beforeRunningLog with _ | c
  swap
  · simp [mem_fired, mem_startupLines, mem_runningLines, mem_signalLines, h2]
  rcases kills o' env ServePoint.whileWaiting with _ | c
  swap
  · simp [mem_fired, mem_startupLines, mem_runningLines, mem_signalLines, h2]
  rcases env.signal with _ | sig
  · simp [mem_fired, mem_startupLines, mem_runningLines, mem_signalLines, h2]
  rcases kills o' env ServePoint.afterSignal with _ | c
  swap
  · simp [mem_fired, mem_startupLines, mem_runningLines, mem_signalLines, h2]
  rcases kills o' env ServePoint.beforeShutdown with _ | c
  swap
  · simp [mem_fired, mem_startupLines, mem_runningLines, mem_signalLines, h2]
  rcases kills o' env ServePoint.duringShutdown with _ | c
  swap
  · simp [mem_fired, mem_startupLines, mem_runningLines, mem_signalLines, h2]
  simp only [conclude]
  rcases env.shutdown Context.Background with _ | _ | e'
  · simp [mem_fired, mem_startupLines, mem_runningLines, mem_signalLines, h2]
  · by_cases hm : o'.Mode = TestingMode <;>
      simp [hm, mem_fired, mem_startupLines, mem_runningLines, mem_signalLines, h2]
  · by_cases hl : o'.LogLevel = LogLevelNone <;>
      simp [hl, mem_fired, mem_startupLines, mem_runningLines, mem_signalLines, h2]

/-- The two lines of lines 116-117 are printed exactly when informational lines are
enabled, a signal is received and the serve task has not terminated the process before
line 115; the signal printed is the signal received. -/
theorem Start_signal_lines {H : Type} (o : Options H) (env : Env) :
    (∀ sig, Event.log (LogLine.receivedSignal sig) ∈ (Start o env).trace ↔
      (infoEnabled (applyDefaults o) = true ∧ env.signal = some sig ∧
        kills (applyDefaults o) env ServePoint.beforeRunningLog = none ∧
        kills (applyDefaults o) env ServePoint.whileWaiting = none ∧
        kills (applyDefaults o) env ServePoint.afterSignal = none)) ∧
    (Event.log LogLine.shuttingDown ∈ (Start o env).trace ↔
      (infoEnabled (applyDefaults o) = true ∧ (∃ sig, env.signal = some sig) ∧
        kills (applyDefaults o) env ServePoint.beforeRunningLog = none ∧
        kills (applyDefaults o) env ServePoint.whileWaiting = none ∧
        kills (applyDefaults o) env ServePoint.afterSignal = none)) := by
  unfold Start
  generalize applyDefaults o = o'
  have h2 : ∀ err sig, LogLine.receivedSignal sig ∉ (serveTask o' err).logs :=
    fun err sig hmem => serveTask_logs_severity o' err _ hmem rfl
  have h3 : ∀ err, LogLine.shuttingDown ∉ (serveTask o' err).logs :=
    fun err hmem => serveTask_logs_severity o' err _ hmem rfl
  simp only [serveAt_eq]
  rcases kills o' env ServePoint.beforeRunningLog with _ | c
  swap
  · simp [mem_fired, mem_startupLines, mem_runningLines, mem_signalLines, h2, h3]
  rcases kills o' env ServePoint.whileWaiting with _ | c
  swap
  · simp [mem_fired, mem_startupLines, mem_runningLines, mem_signalLines, h2, h3]
  rcases env.signal with _ | sig
  · simp [mem_fired, mem_startupLines, mem_runningLines, mem_signalLines, h2, h3]
  rcases kills o' env ServePoint.afterSignal with _ | c
  swap
  · simp [mem_fired, mem_startupLines, mem_runningLines, mem_signalLines, h2, h3]
  rcases kills o' env ServePoint.beforeShutdown with _ | c
  swap
  · simp [mem_fired, mem_startupLines, mem_runningLines, mem_signalLines, h2, h3]
    exact fun _ _ => eq_comm
  rcases kills o' env ServePoint.duringShutdown with _ | c
  swap
  · simp [mem_fired, mem_startupLines, mem_runningLines, mem_signalLines, h2, h3]
    exact fun _ _ => eq_comm
  simp only [conclude]
  rcases env.shutdown Context.Background with _ | _ | e'
  · simp [mem_fired, mem_startupLines, mem_runningLines, mem_signalLines, h2, h3]
    exact fun _ _ => eq_comm
  · by_cases hm : o'.Mode = TestingMode <;>
      simp [hm, mem_fired, mem_startupLines, mem_runningLines, mem_signalLines, h2, h3] <;>
      exact fun _ _ => eq_comm
  · by_cases hl : o'.LogLevel = LogLevelNone <;>
      simp [hl, mem_fired, mem_startupLines, mem_runningLines, mem_signalLines, h2, h3] <;>
      exact fun _ _ => eq_comm

/-! ## The claims -/

/-- C1: in every run of `Start` in which a termination signal is received, `Start`
returns a failure exactly when the call of `Shutdown` returns an error; the error
returned is then that error, the handle is nil, and the call ends by returning and not
by terminating the process, whatever the mode and the log level. -/
theorem C1_shutdown_failure_is_returned {H : Type} (o : Options H) (env : Env)
    (sig : Signal) (_hsig : Event.received sig ∈ (Start o env).trace) :
    ((∃ s e, (Start o env).outcome = Outcome.returned s (some e)) ↔
        ∃ e, Event.shutdownReturned (some e) ∈ (Start o env).trace) ∧
    (∀ e, Event.shutdownReturned (some e) ∈ (Start o env).trace →
        (Start o env).outcome = Outcome.returned none (some e) ∧
          ∀ c, (Start o env).outcome ≠ Outcome.exited c) := by
  refine ⟨⟨?_, ?_⟩, ?_⟩
  · rintro ⟨s, e, h⟩
    exact ⟨e, (Start_returned o env s (some e) h).2.2.1⟩
  · rintro ⟨e, h⟩
    exact ⟨none, e, (Start_shutdown_error o env e).mp h⟩
  · intro e h
    have h' := (Start_shutdown_error o env e).mp h
    refine ⟨h', ?_⟩
    intro c hc
    rw [h'] at hc
    cases hc

/-- The statement of C1 at a failing `Shutdown`, in the testing mode and in the
production mode with the log level none. -/
theorem C1_witness :
    Event.received Signal.SIGTERM ∈ (Start testOptions envShutdownFails).trace ∧
    (Start testOptions envShutdownFails).outcome =
      Outcome.returned none (some (GoError.other "shutdown failed")) ∧
    (Start { testOptions with Mode := "production", LogLevel := "none" }
        envShutdownFails).outcome =
      Outcome.returned none (some (GoError.other "shutdown failed")) :=
  ⟨by decide,
   ((C1_shutdown_failure_is_returned testOptions envShutdownFails Signal.SIGTERM
      (by decide)).2 _ (by decide)).1,
   ((C1_shutdown_failure_is_returned { testOptions with Mode := "production", LogLevel := "none" }
      envShutdownFails Signal.SIGTERM (by decide)).2 _ (by decide)).1⟩

/-- C2: when the termination signal has been received and `Shutdown` has succeeded,
`Start` in the production mode (given, or the default of an empty mode) terminates the
process with exit code 0, so it does not return; in the testing mode it returns the
server handle built at line 86, which is not nil, with a nil error, and does not
terminate the process. -/
theorem C2_clean_shutdown {H : Type} (o : Options H) (env : Env) (sig : Signal)
    (_hsig : Event.received sig ∈ (Start o env).trace)
    (hok : Event.shutdownReturned none ∈ (Start o env).trace) :
    ((o.Mode = ProductionMode ∨ o.Mode = "") →
        (Start o env).outcome = Outcome.exited 0) ∧
    (o.Mode = TestingMode →
        (Start o env).outcome =
          Outcome.returned (some (New (o.Host ++ ":" ++ o.Port) o.Handler)) none) := by
  have h := Start_shutdown_ok o env hok
  constructor
  · intro hm
    have hne : o.Mode ≠ TestingMode := by
      rcases hm with hm | hm <;> rw [hm] <;> decide
    rw [h, if_neg hne]
  · intro hm
    rw [h, if_pos hm]

/-- The statement of C2 at the run of the test of start_test.go, and at the same run
with the mode left empty. -/
theorem C2_witness :
    Event.received Signal.SIGTERM ∈ (Start testOptions envClean).trace ∧
    Event.shutdownReturned none ∈ (Start testOptions envClean).trace ∧
    (Start testOptions envClean).outcome =
      Outcome.returned (some (New "localhost:8080" ())) none ∧
    (Start { testOptions with Mode := "" } envClean).outcome = Outcome.exited 0 :=
  ⟨by decide, by decide,
   (C2_clean_shutdown testOptions envClean Signal.SIGTERM (by decide) (by decide)).2 rfl,
   (C2_clean_shutdown { testOptions with Mode := "" } envClean Signal.SIGTERM
      (by decide) (by decide)).1 (Or.inr rfl)⟩

/-- C3: the serve task (lines 92-106), run with the options after the defaults, given
what the serve loop returned.  For nil and for `http.ErrServerClosed` it prints nothing
and does not terminate the process.  For any other error: in the testing mode it prints
the error line exactly when the log level is not none and does not terminate the
process; in the production mode it terminates the process with exit code 1, with the
fatal line when the log level is not none and without any line when it is none. -/
theorem C3_serve_task {H : Type} (o : Options H) (err : Option GoError) :
    ((err = none ∨ err = some GoError.ErrServerClosed) →
        serveTask (applyDefaults o) err = { logs := [], exit := none }) ∧
    (∀ e, err = some e → e ≠ GoError.ErrServerClosed →
      (o.Mode = TestingMode →
        (serveTask (applyDefaults o) err).exit = none ∧
        (o.LogLevel ≠ LogLevelNone →
          (serveTask (applyDefaults o) err).logs = [LogLine.errorStarting e]) ∧
        (o.LogLevel = LogLevelNone → (serveTask (applyDefaults o) err).logs = [])) ∧
      ((o.Mode = ProductionMode ∨ o.Mode = "") →
        (o.LogLevel ≠ LogLevelNone →
          serveTask (applyDefaults o) err =
            { logs := [LogLine.fatalStarting e], exit := some 1 }) ∧
        (o.LogLevel = LogLevelNone →
          serveTask (applyDefaults o) err = { logs := [], exit := some 1 }))) := by
  have hM := applyDefaults_testing o
  have hN := applyDefaults_none o
  constructor
  · intro h
    apply serveTask_exit_closed
    intro e he
    rcases h with h | h
    · rw [h] at he
      cases he
    · rw [h] at he
      cases he
      rfl
  · rintro e rfl he
    constructor
    · intro hm
      have hm' := hM.mpr hm
      refine ⟨serveTask_exit_testing _ _ hm', ?_, ?_⟩
      · intro hl
        have hl' : (applyDefaults o).LogLevel ≠ LogLevelNone := fun h => hl (hN.mp h)
        simp [serveTask, he, hm', hl']
      · intro hl
        exact serveTask_logs_none _ _ (hN.mpr hl)
    · intro hm
      have hm' : (applyDefaults o).Mode ≠ TestingMode := by
        intro h
        have h' := hM.mp h
        rcases hm with hm | hm <;> rw [hm] at h' <;> revert h' <;> decide
      constructor
      · intro hl
        have hl' : (applyDefaults o).LogLevel ≠ LogLevelNone := fun h => hl (hN.mp h)
        simp [serveTask, he, hm', hl']
      · intro hl
        have hl' := hN.mpr hl
        simp [serveTask, he, hm', hl']

/-- The statement of C3 at a bind error and at `http.ErrServerClosed`. -/
theorem C3_witness :
    ((serveTask (applyDefaults testOptions) (some (GoError.other "bind"))).exit = none ∧
      (serveTask (applyDefaults testOptions) (some (GoError.other "bind"))).logs =
        [LogLine.errorStarting (GoError.other "bind")]) ∧
    serveTask (applyDefaults { testOptions with Mode := "", LogLevel := "none" })
        (some (GoError.other "bind")) = { logs := [], exit := some 1 } ∧
    serveTask (applyDefaults { testOptions with Mode := "production" })
        (some (GoError.other "bind")) =
      { logs := [LogLine.fatalStarting (GoError.other "bind")], exit := some 1 } ∧
    serveTask (applyDefaults { testOptions with Mode := "production" })
        (some GoError.ErrServerClosed) = { logs := [], exit := none } :=
  ⟨⟨(((C3_serve_task testOptions (some (GoError.other "bind"))).2 _ rfl
      (by decide)).1 rfl).1,
    (((C3_serve_task testOptions (some (GoError.other "bind"))).2 _ rfl
      (by decide)).1 rfl).2.1 (by decide)⟩,
   (((C3_serve_task { testOptions with Mode := "", LogLevel := "none" }
      (some (GoError.other "bind"))).2 _ rfl (by decide)).2 (Or.inr rfl)).2 rfl,
   (((C3_serve_task { testOptions with Mode := "production" }
      (some (GoError.other "bind"))).2 _ rfl (by decide)).2 (Or.inl rfl)).1 (by decide),
   (C3_serve_task { testOptions with Mode := "production" }
      (some GoError.ErrServerClosed)).1 (Or.inr rfl)⟩

/-- C4: at the log level none a run of `Start` has no console line at all, whatever the
mode, the serve loop's result and the answer of `Shutdown`; and it ends the same way
(same returned handle and error, or same exit code, or same endless wait) as the run
with the same inputs under any other log level. -/
theorem C4_none_is_silent {H : Type} (o : Options H) (env : Env) (level : LogLevel) :
    (∀ l, Event.log l ∉ (Start { o with LogLevel := LogLevelNone } env).trace) ∧
    (Start { o with LogLevel := LogLevelNone } env).outcome =
      (Start { o with LogLevel := level } env).outcome := by
  constructor
  · intro l
    exact Start_silent _ env rfl l
  · apply Start_outcome_congr
    · rw [applyDefaults_Host, applyDefaults_Host]
    · rw [applyDefaults_Port, applyDefaults_Port]
    · rw [applyDefaults_Handler, applyDefaults_Handler]
    · rw [applyDefaults_Mode, applyDefaults_Mode]

/-- C5: leaving the mode empty is the same as giving the mode "production", and
leaving the log level empty is the same as giving the log level "info": the runs
(console lines and other effects in order, returned values, exits) are equal, all
other fields and all answers of the outside world being equal. -/
theorem C5_defaults {H : Type} (o : Options H) (env : Env) :
    Start { o with Mode := "" } env = Start { o with Mode := ProductionMode } env ∧
    Start { o with LogLevel := "" } env = Start { o with LogLevel := LogLevelInfo } env := by
  constructor
  · apply Start_congr
    by_cases hl : o.LogLevel = "" <;>
      simp [applyDefaults, DefaultMode, ProductionMode, hl]
  · apply Start_congr
    by_cases hm : o.Mode = "" <;>
      simp [applyDefaults, LogLevelInfo, hm]

/-- C6, as stated, fails: with the port in use and no signal delivered, `Start` in the
testing mode prints the error line and then never returns to its caller. -/
theorem C6_counterexample :
    testOptions.Mode = TestingMode ∧
    envPortInUse.serve = some (ServePoint.whileWaiting,
      some (GoError.other "listen tcp 127.0.0.1:8080: bind: address already in use")) ∧
    envPortInUse.signal = none ∧
    Event.log (LogLine.errorStarting
        (GoError.other "listen tcp 127.0.0.1:8080: bind: address already in use")) ∈
      (Start testOptions envPortInUse).trace ∧
    (Start testOptions envPortInUse).outcome = Outcome.blocked ∧
    ¬ ∃ s r, (Start testOptions envPortInUse).outcome = Outcome.returned s r := by
  refine ⟨rfl, rfl, rfl, by decide, by decide, ?_⟩
  rintro ⟨s, r, h⟩
  have hb : (Start testOptions envPortInUse).outcome = Outcome.blocked := by decide
  rw [hb] at h
  cases h
/-- C6, amended: when the serve loop fails with an error other than
`http.ErrServerClosed` (the port is in use), in the testing mode the process is not
terminated; handled before the signal, the failure is in the run, and once it is there
the error line is printed exactly when the log level is not none.  `Start` itself keeps
waiting for the signal: without one it never returns; once one is delivered it returns
as soon as `Shutdown` returns, with the handle built at line 86 and a nil error after a
successful `Shutdown`, with the nil handle and the error otherwise; and it returns in
no other way. -/
theorem C6_testing_serve_failure {H : Type} (o : Options H) (env : Env) (p : ServePoint)
    (e : GoError) (hm : o.Mode = TestingMode) (hs : env.serve = some (p, some e))
    (he : e ≠ GoError.ErrServerClosed) :
    (∀ c, (Start o env).outcome ≠ Outcome.exited c) ∧
    ((p = ServePoint.beforeRunningLog ∨ p = ServePoint.whileWaiting) →
        Event.serveReturned (some e) ∈ (Start o env).trace) ∧
    (Event.serveReturned (some e) ∈ (Start o env).trace →
        (Event.log (LogLine.errorStarting e) ∈ (Start o env).trace ↔
          o.LogLevel ≠ LogLevelNone)) ∧
    (env.signal = none → (Start o env).outcome = Outcome.blocked) ∧
    (∀ sig, env.signal = some sig →
        (env.shutdown Context.Background = some none →
          (Start o env).outcome =
            Outcome.returned (some (New (o.Host ++ ":" ++ o.Port) o.Handler)) none) ∧
        (∀ e', env.shutdown Context.Background = some (some e') →
          (Start o env).outcome = Outcome.returned none (some e')) ∧
        (env.shutdown Context.Background = none →
          (Start o env).outcome = Outcome.blocked)) ∧
    (∀ s r, (Start o env).outcome = Outcome.returned s r →
        ∃ sig, env.signal = some sig ∧ Event.received sig ∈ (Start o env).trace ∧
          Event.shutdownReturned r ∈ (Start o env).trace) := by
  have hk : ∀ q, kills (applyDefaults o) env q = none :=
    fun q => kills_testing _ env q ((applyDefaults_testing o).mpr hm)
  have halive := Start_alive o env hk
  refine ⟨Start_testing_no_exit o env hm, Start_early_task o env p _ hs, ?_, halive.1,
    ?_, ?_⟩
  · intro h
    constructor
    · intro hlog hl
      exact Start_silent o env hl _ hlog
    · intro hl
      have hm' := (applyDefaults_testing o).mpr hm
      have hl' : (applyDefaults o).LogLevel ≠ LogLevelNone :=
        fun h' => hl ((applyDefaults_none o).mp h')
      apply (Start_task o env _ h).2.1
      rw [serveTask_failure_testing _ e he hm' hl']
      exact List.mem_singleton.mpr rfl
  · intro sig hsig
    obtain ⟨-, h1, h2, h3⟩ := halive.2 sig hsig
    refine ⟨?_, h2, h1⟩
    intro hok
    rw [h3 hok, if_pos hm]
  · intro s r hout
    obtain ⟨⟨sig, h1, h2⟩, -, h3, -⟩ := Start_returned o env s r hout
    exact ⟨sig, h1, h2, h3⟩

/-- The amended statement of C6 with the port in use: without a signal `Start` stays
blocked, with one it logs the error and returns the handle. -/
theorem C6_witness :
    (∀ c, (Start testOptions envPortInUseThenSignal).outcome ≠ Outcome.exited c) ∧
    Event.log (LogLine.errorStarting
        (GoError.other "listen tcp 127.0.0.1:8080: bind: address already in use")) ∈
      (Start testOptions envPortInUseThenSignal).trace ∧
    (Start testOptions envPortInUseThenSignal).outcome =
      Outcome.returned (some (New "localhost:8080" ())) none ∧
    (Start testOptions envPortInUse).outcome = Outcome.blocked :=
  ⟨(C6_testing_serve_failure testOptions envPortInUseThenSignal ServePoint.whileWaiting _
      rfl rfl (by decide)).1,
   ((C6_testing_serve_failure testOptions envPortInUseThenSignal ServePoint.whileWaiting _
      rfl rfl (by decide)).2.2.1 (by decide)).mpr (by decide),
   ((C6_testing_serve_failure testOptions envPortInUseThenSignal ServePoint.whileWaiting _
      rfl rfl (by decide)).2.2.2.2.1 Signal.SIGINT rfl).1 rfl,
   (C6_testing_serve_failure testOptions envPortInUse ServePoint.whileWaiting _
      rfl rfl (by decide)).2.2.2.1 rfl⟩

/-- C8, as stated, fails: the context `Start` hands to `Shutdown` has no deadline, and
when a connection never finishes `Start` waits in `Shutdown` for ever. -/
theorem C8_counterexample :
    Event.shutdownCalled Context.Background ∈ (Start testOptions envSlowDrain).trace ∧
    Context.Background.deadline = none ∧
    (Start testOptions envSlowDrain).outcome = Outcome.blocked ∧
    ¬ (∀ ctx, Event.shutdownCalled ctx ∈ (Start testOptions envSlowDrain).trace →
        ∃ d, ctx.deadline = some d) := by
  refine ⟨by decide, rfl, by decide, ?_⟩
  intro h
  obtain ⟨d, hd⟩ := h Context.Background (by decide)
  cases hd

/-- C8, amended: `Start` does not bound the graceful shutdown.  Every call of
`Shutdown` it issues comes after the receipt of a signal and carries the background
context, which has no deadline; `Start` returns only with what `Shutdown` returned.
While `Shutdown` does not return, `Start` waits in it, for ever if it never returns: a
run that has called it is blocked, in every mode, unless the serve task terminates the
process meanwhile (exit code 1, a mode other than testing, a serve-loop failure handled
during the shutdown); and once a signal is delivered `Start` does call `Shutdown` and
wait, in the testing mode and in any mode when the serve loop ends only with `Start`. -/
theorem C8_shutdown_unbounded {H : Type} (o : Options H) (env : Env) :
    (∀ ctx, Event.shutdownCalled ctx ∈ (Start o env).trace →
        ctx = Context.Background ∧ ctx.deadline = none ∧
          ∃ sig, Event.received sig ∈ (Start o env).trace) ∧
    (∀ s r, (Start o env).outcome = Outcome.returned s r →
        env.shutdown Context.Background = some r) ∧
    (env.shutdown Context.Background = none →
        ∀ s r, (Start o env).outcome ≠ Outcome.returned s r) ∧
    (env.shutdown Context.Background = none →
        ∀ ctx, Event.shutdownCalled ctx ∈ (Start o env).trace →
          (Start o env).outcome = Outcome.blocked ∨
            ((Start o env).outcome = Outcome.exited 1 ∧ o.Mode ≠ TestingMode ∧
              ∃ e, e ≠ GoError.ErrServerClosed ∧
                env.serve = some (ServePoint.duringShutdown, some e))) ∧
    (env.shutdown Context.Background = none →
        (o.Mode = TestingMode ∨ env.serve = none) →
        ∀ sig, env.signal = some sig →
          Event.shutdownCalled Context.Background ∈ (Start o env).trace ∧
            (Start o env).outcome = Outcome.blocked) := by
  refine ⟨?_, ?_, ?_, ?_, ?_⟩
  · intro ctx h
    obtain ⟨h1, sig, -, h2⟩ := Start_shutdownCalled o env ctx h
    exact ⟨h1, by rw [h1]; rfl, sig, h2⟩
  · intro s r h
    exact (Start_returned o env s r h).2.1
  · intro hn s r h
    have h' := (Start_returned o env s r h).2.1
    rw [hn] at h'
    cases h'
  · intro hn ctx h
    exact Start_shutdown_pending o env ctx hn h
  · intro hn hcase sig hsig
    have hk : ∀ q, kills (applyDefaults o) env q = none := by
      intro q
      rcases hcase with hm | hs
      · exact kills_testing _ env q ((applyDefaults_testing o).mpr hm)
      · exact kills_serve_none _ env q hs
    obtain ⟨h1, h2, -⟩ := (Start_alive o env hk).2 sig hsig
    exact ⟨h1, h2 hn⟩

/-- The amended statement of C8 at a `Shutdown` that never returns, in the production
mode and in the testing mode, and at one that succeeds. -/
theorem C8_witness :
    (Start { testOptions with Mode := "production" } envSlowDrain).outcome =
      Outcome.blocked ∧
    (Start testOptions envSlowDrain).outcome = Outcome.blocked ∧
    (∀ s r, (Start testOptions envSlowDrain).outcome ≠ Outcome.returned s r) ∧
    (envClean.shutdown Context.Background = some none) :=
  ⟨((C8_shutdown_unbounded { testOptions with Mode := "production" } envSlowDrain).2.2.2.2
      rfl (Or.inr rfl) Signal.SIGTERM rfl).2,
   ((C8_shutdown_unbounded testOptions envSlowDrain).2.2.2.2
      rfl (Or.inl rfl) Signal.SIGTERM rfl).2,
   (C8_shutdown_unbounded testOptions envSlowDrain).2.2.1 rfl,
   (C8_shutdown_unbounded testOptions envClean).2.1 _ _
     (show (Start testOptions envClean).outcome =
        Outcome.returned (some (New "localhost:8080" ())) none by decide)⟩

/-- C9: the informational lines are printed exactly when the effective log level (the
level after the defaults) is debug or info, wherever the run gets to them.  The startup
line carries `Host ++ ":" ++ Port` and is gated so in every run; the URL line needs, in
addition, a URL that is not empty.  The "running" line of lines 109-111 is gated so in
every run in which the serve task has not terminated the process before line 109
(`kills` at the first point is `none`), the runs still waiting for a signal included;
the two lines of lines 116-117 in every run in which a signal is delivered and the
serve task has not terminated the process before line 115.  When the serve task cannot
terminate the process (testing mode, or a serve loop that ends only with `Start`),
these conditions hold by themselves.  No informational line is ever printed at another
level.  At the level "error" none of them is printed, while the error lines still are:
that of a failed `Shutdown`, and that of a serve-loop failure the serve task has handled
(the error line in the testing mode, the fatal line in any other mode). -/
theorem C9_info_gating {H : Type} (o : Options H) (env : Env) :
    (Event.log (LogLine.starting (o.Host ++ ":" ++ o.Port)) ∈ (Start o env).trace ↔
      ((applyDefaults o).LogLevel = LogLevelDebug ∨
        (applyDefaults o).LogLevel = LogLevelInfo)) ∧
    (Event.log (LogLine.appURL o.URL) ∈ (Start o env).trace ↔
      (((applyDefaults o).LogLevel = LogLevelDebug ∨
        (applyDefaults o).LogLevel = LogLevelInfo) ∧ o.URL ≠ "")) ∧
    (Event.log LogLine.running ∈ (Start o env).trace ↔
      (((applyDefaults o).LogLevel = LogLevelDebug ∨
        (applyDefaults o).LogLevel = LogLevelInfo) ∧
        kills (applyDefaults o) env ServePoint.beforeRunningLog = none)) ∧
    (∀ sig, Event.log (LogLine.receivedSignal sig) ∈ (Start o env).trace ↔
      (((applyDefaults o).LogLevel = LogLevelDebug ∨
        (applyDefaults o).LogLevel = LogLevelInfo) ∧ env.signal = some sig ∧
        kills (applyDefaults o) env ServePoint.beforeRunningLog = none ∧
        kills (applyDefaults o) env ServePoint.whileWaiting = none ∧
        kills (applyDefaults o) env ServePoint.afterSignal = none)) ∧
    (Event.log LogLine.shuttingDown ∈ (Start o env).trace ↔
      (((applyDefaults o).LogLevel = LogLevelDebug ∨
        (applyDefaults o).LogLevel = LogLevelInfo) ∧ (∃ sig, env.signal = some sig) ∧
        kills (applyDefaults o) env ServePoint.beforeRunningLog = none ∧
        kills (applyDefaults o) env ServePoint.whileWaiting = none ∧
        kills (applyDefaults o) env ServePoint.afterSignal = none)) ∧
    ((o.Mode = TestingMode ∨ env.serve = none) →
      (Event.log LogLine.running ∈ (Start o env).trace ↔
        ((applyDefaults o).LogLevel = LogLevelDebug ∨
          (applyDefaults o).LogLevel = LogLevelInfo)) ∧
      (∀ sig, env.signal = some sig →
        (Event.log (LogLine.receivedSignal sig) ∈ (Start o env).trace ↔
          ((applyDefaults o).LogLevel = LogLevelDebug ∨
            (applyDefaults o).LogLevel = LogLevelInfo)) ∧
        (Event.log LogLine.shuttingDown ∈ (Start o env).trace ↔
          ((applyDefaults o).LogLevel = LogLevelDebug ∨
            (applyDefaults o).LogLevel = LogLevelInfo)))) ∧
    (∀ sig, Event.received sig ∈ (Start o env).trace →
      (Event.log LogLine.running ∈ (Start o env).trace ↔
        ((applyDefaults o).LogLevel = LogLevelDebug ∨
          (applyDefaults o).LogLevel = LogLevelInfo))) ∧
    (∀ sig ctx, Event.received sig ∈ (Start o env).trace →
      Event.shutdownCalled ctx ∈ (Start o env).trace →
      ((Event.log (LogLine.receivedSignal sig) ∈ (Start o env).trace ↔
        ((applyDefaults o).LogLevel = LogLevelDebug ∨
          (applyDefaults o).LogLevel = LogLevelInfo)) ∧
       (Event.log LogLine.shuttingDown ∈ (Start o env).trace ↔
        ((applyDefaults o).LogLevel = LogLevelDebug ∨
          (applyDefaults o).LogLevel = LogLevelInfo)))) ∧
    (∀ l, l.severity = Severity.info → Event.log l ∈ (Start o env).trace →
      ((applyDefaults o).LogLevel = LogLevelDebug ∨
        (applyDefaults o).LogLevel = LogLevelInfo)) ∧
    (o.LogLevel = LogLevelError →
      (∀ l, l.severity = Severity.info → Event.log l ∉ (Start o env).trace) ∧
      (∀ e, Event.shutdownReturned (some e) ∈ (Start o env).trace →
        Event.log (LogLine.errorShuttingDown e) ∈ (Start o env).trace) ∧
      (∀ e, e ≠ GoError.ErrServerClosed →
        Event.serveReturned (some e) ∈ (Start o env).trace →
        (o.Mode = TestingMode →
          Event.log (LogLine.errorStarting e) ∈ (Start o env).trace) ∧
        (o.Mode ≠ TestingMode →
          Event.log (LogLine.fatalStarting e) ∈ (Start o env).trace))) := by
  have hinfo := infoEnabled_iff (applyDefaults o)
  have hgate : ∀ l, l.severity = Severity.info → Event.log l ∈ (Start o env).trace →
      ((applyDefaults o).LogLevel = LogLevelDebug ∨
        (applyDefaults o).LogLevel = LogLevelInfo) :=
    fun l hsev h => hinfo.mp (Start_info_line o env l hsev h)
  have hrun := Start_running_line o env
  have hsig := Start_signal_lines o env
  rw [hinfo] at hrun
  simp only [hinfo] at hsig
  refine ⟨?_, ?_, hrun, hsig.1, hsig.2, ?_, ?_, ?_, hgate, ?_⟩
  · rw [(Start_startup_lines o env).1, hinfo]
    exact and_iff_left rfl
  · rw [(Start_startup_lines o env).2, hinfo]
    constructor
    · rintro ⟨h1, h2, -⟩
      exact ⟨h1, h2⟩
    · rintro ⟨h1, h2⟩
      exact ⟨h1, h2, rfl⟩
  · intro hcase
    have hk : ∀ q, kills (applyDefaults o) env q = none := by
      intro q
      rcases hcase with hm | hs
      · exact kills_testing _ env q ((applyDefaults_testing o).mpr hm)
      · exact kills_serve_none _ env q hs
    refine ⟨?_, ?_⟩
    · rw [hrun]
      exact and_iff_left (hk _)
    · intro sig hs
      constructor
      · rw [hsig.1 sig]
        exact and_iff_left ⟨hs, hk _, hk _, hk _⟩
      · rw [hsig.2]
        exact and_iff_left ⟨⟨sig, hs⟩, hk _, hk _, hk _⟩
  · intro sig hs
    exact ⟨hgate _ rfl, fun h => (Start_progress_lines o env (hinfo.mpr h)).1 sig hs⟩
  · intro sig ctx hs hctx
    exact ⟨⟨hgate _ rfl,
        fun h => ((Start_progress_lines o env (hinfo.mpr h)).2 ctx sig hctx hs).1⟩,
      ⟨hgate _ rfl,
        fun h => ((Start_progress_lines o env (hinfo.mpr h)).2 ctx sig hctx hs).2⟩⟩
  · intro hl
    have hne : o.LogLevel ≠ LogLevelNone := by
      rw [hl]
      decide
    have hne' : (applyDefaults o).LogLevel ≠ LogLevelNone :=
      fun h => hne ((applyDefaults_none o).mp h)
    have heff : (applyDefaults o).LogLevel = LogLevelError := by
      rw [applyDefaults_LogLevel, hl]
      decide
    refine ⟨?_, ?_, ?_⟩
    · intro l hsev h
      have h' := hgate l hsev h
      rw [heff] at h'
      revert h'
      decide
    · intro e h
      exact (Start_shutdown_error_line o env e).mpr ⟨h, hne⟩
    · intro e he h
      constructor
      · intro hm
        apply (Start_task o env _ h).2.1
        rw [serveTask_failure_testing _ e he ((applyDefaults_testing o).mpr hm) hne']
        exact List.mem_singleton.mpr rfl
      · intro hm
        apply (Start_task o env _ h).2.1
        rw [serveTask_failure_fatal _ e he
          (fun h' => hm ((applyDefaults_testing o).mp h')) hne']
        exact List.mem_singleton.mpr rfl

/-- The statement of C9 at the default log level (the run of the test, a run still
waiting for its signal, a run the serve task ends before `Shutdown` is called) and at
the log level "error" (a failed `Shutdown`, a serve-loop failure in the testing mode and
in the mode "development"). -/
theorem C9_witness :
    (Event.log (LogLine.starting "localhost:8080") ∈ (Start testOptions envClean).trace ∧
      Event.log (LogLine.appURL "") ∉ (Start testOptions envClean).trace ∧
      Event.log LogLine.running ∈ (Start testOptions envClean).trace) ∧
    ((Start testOptions envPortInUse).outcome = Outcome.blocked ∧
      Event.log LogLine.running ∈ (Start testOptions envPortInUse).trace) ∧
    (Event.shutdownCalled Context.Background ∉
        (Start { testOptions with Mode := "production" } envFailsBeforeShutdown).trace ∧
      Event.log (LogLine.receivedSignal Signal.SIGTERM) ∈
        (Start { testOptions with Mode := "production" } envFailsBeforeShutdown).trace ∧
      Event.log LogLine.shuttingDown ∈
        (Start { testOptions with Mode := "production" } envFailsBeforeShutdown).trace) ∧
    (Event.log (LogLine.starting "0.0.0.0:80") ∉ (Start devOptions envShutdownFails).trace ∧
      Event.log (LogLine.errorShuttingDown (GoError.other "shutdown failed")) ∈
        (Start devOptions envShutdownFails).trace) ∧
    (Event.log (LogLine.errorStarting
          (GoError.other "listen tcp 127.0.0.1:8080: bind: address already in use")) ∈
        (Start { testOptions with LogLevel := "error" } envPortInUse).trace ∧
      Event.log (LogLine.fatalStarting
          (GoError.other "listen tcp 127.0.0.1:8080: bind: address already in use")) ∈
        (Start devOptions envPortInUse).trace) :=
  ⟨⟨(C9_info_gating testOptions envClean).1.mpr (by decide),
    fun h => ((C9_info_gating testOptions envClean).2.1.mp h).2 rfl,
    ((C9_info_gating testOptions envClean).2.2.2.2.2.2.1 Signal.SIGTERM (by decide)).mpr
      (by decide)⟩,
   ⟨by decide,
    (C9_info_gating testOptions envPortInUse).2.2.1.mpr ⟨by decide, by decide⟩⟩,
   ⟨by decide,
    ((C9_info_gating { testOptions with Mode := "production" }
        envFailsBeforeShutdown).2.2.2.1 Signal.SIGTERM).mpr
      ⟨by decide, rfl, by decide, by decide, by decide⟩,
    (C9_info_gating { testOptions with Mode := "production" }
        envFailsBeforeShutdown).2.2.2.2.1.mpr
      ⟨by decide, ⟨Signal.SIGTERM, rfl⟩, by decide, by decide, by decide⟩⟩,
   ⟨((C9_info_gating devOptions envShutdownFails).2.2.2.2.2.2.2.2.2 rfl).1 _ rfl,
    ((C9_info_gating devOptions envShutdownFails).2.2.2.2.2.2.2.2.2 rfl).2.1 _ (by decide)⟩,
   ⟨(((C9_info_gating { testOptions with LogLevel := "error" } envPortInUse).2.2.2.2.2.2.2.2.2
        rfl).2.2
      (GoError.other "listen tcp 127.0.0.1:8080: bind: address already in use")
      (by decide) (by decide)).1 rfl,
    (((C9_info_gating devOptions envPortInUse).2.2.2.2.2.2.2.2.2 rfl).2.2
      (GoError.other "listen tcp 127.0.0.1:8080: bind: address already in use")
      (by decide) (by decide)).2 (by decide)⟩⟩

/-- C10: for every mode other than "testing" (so "production", the empty default,
"development" and any other value) `Start` runs exactly as in the production mode: it
terminates the process with exit code 0 after a successful `Shutdown`, it terminates
the process with exit code 1 when the serve task has handled a serve-loop failure other
than `http.ErrServerClosed`, and it never returns a nil error: `Start` can return a nil
error only when the mode is exactly "testing". -/
theorem C10_only_testing_returns {H : Type} (o : Options H) (env : Env)
    (hm : o.Mode ≠ TestingMode) :
    Start o env = Start { o with Mode := ProductionMode } env ∧
    (Event.shutdownReturned none ∈ (Start o env).trace →
      (Start o env).outcome = Outcome.exited 0) ∧
    (∀ e, e ≠ GoError.ErrServerClosed →
      Event.serveReturned (some e) ∈ (Start o env).trace →
      (Start o env).outcome = Outcome.exited 1) ∧
    (∀ s, (Start o env).outcome ≠ Outcome.returned s none) := by
  have hm' : (applyDefaults o).Mode ≠ TestingMode :=
    fun h => hm ((applyDefaults_testing o).mp h)
  refine ⟨?_, ?_, ?_, ?_⟩
  · apply Start_mode_congr
    · rw [applyDefaults_Host, applyDefaults_Host]
    · rw [applyDefaults_Port, applyDefaults_Port]
    · rw [applyDefaults_URL, applyDefaults_URL]
    · rw [applyDefaults_Handler, applyDefaults_Handler]
    · rw [applyDefaults_LogLevel, applyDefaults_LogLevel]
    · rw [applyDefaults_testing, applyDefaults_testing]
      constructor
      · intro h
        exact absurd h hm
      · intro h
        exact absurd (show ProductionMode = TestingMode from h) (by decide)
  · intro h
    rw [Start_shutdown_ok o env h, if_neg hm]
  · intro e he h
    exact (Start_task o env _ h).2.2 1 (serveTask_exit_failure _ e he hm')
  · intro s h
    exact hm ((Start_returned o env s none h).2.2.2.1 rfl).1

/-- The statement of C10 at the mode "development". -/
theorem C10_witness :
    devOptions.Mode ≠ TestingMode ∧
    Start devOptions envClean = Start { devOptions with Mode := ProductionMode } envClean ∧
    (Start devOptions envClean).outcome = Outcome.exited 0 ∧
    (Start devOptions envPortInUse).outcome = Outcome.exited 1 :=
  ⟨by decide,
   (C10_only_testing_returns devOptions envClean (by decide)).1,
   (C10_only_testing_returns devOptions envClean (by decide)).2.1 (by decide),
   (C10_only_testing_returns devOptions envPortInUse (by decide)).2.2.1
     (GoError.other "listen tcp 127.0.0.1:8080: bind: address already in use")
     (by decide) (by decide)⟩

end websrv
